import Mathlib

/-!
Verification of the codon-usage and tRNA-adaptation engine of the
VirusHostInteractionPredictor repository (`src/vhip/mlmodel/gene_features.py`).

The Python module is shallowly embedded: the genetic-code tables are copied
verbatim, per-gene codon counting is a pure function over the codon windows of
the sequence, the `GeneSet` aggregation loop is explicit structural recursion
threading its accumulator, and every place where the Python code can raise
(`Exception`, `ZeroDivisionError`, `KeyError`) is an `Except`/`Option` failure.
Machine floats are modelled by exact rationals (`ℚ`); float division by zero is
an explicit error value, mirroring Python's `ZeroDivisionError`.
-/

/-- CODON_TABLE from gene_features.py: the 64 codons with their encoded
one-letter amino-acid abbreviation, in source order; `_` marks a stop codon. -/
def CODON_TABLE : List (String × String) :=
  [("ATA", "I"), ("ATC", "I"), ("ATT", "I"), ("ATG", "M"),
   ("ACA", "T"), ("ACC", "T"), ("ACG", "T"), ("ACT", "T"),
   ("AAC", "N"), ("AAT", "N"), ("AAA", "K"), ("AAG", "K"),
   ("AGC", "S"), ("AGT", "S"), ("AGA", "R"), ("AGG", "R"),
   ("CTA", "L"), ("CTC", "L"), ("CTG", "L"), ("CTT", "L"),
   ("CCA", "P"), ("CCC", "P"), ("CCG", "P"), ("CCT", "P"),
   ("CAC", "H"), ("CAT", "H"), ("CAA", "Q"), ("CAG", "Q"),
   ("CGA", "R"), ("CGC", "R"), ("CGG", "R"), ("CGT", "R"),
   ("GTA", "V"), ("GTC", "V"), ("GTG", "V"), ("GTT", "V"),
   ("GCA", "A"), ("GCC", "A"), ("GCG", "A"), ("GCT", "A"),
   ("GAC", "D"), ("GAT", "D"), ("GAA", "E"), ("GAG", "E"),
   ("GGA", "G"), ("GGC", "G"), ("GGG", "G"), ("GGT", "G"),
   ("TCA", "S"), ("TCC", "S"), ("TCG", "S"), ("TCT", "S"),
   ("TTC", "F"), ("TTT", "F"), ("TTA", "L"), ("TTG", "L"),
   ("TAC", "Y"), ("TAT", "Y"), ("TAA", "_"), ("TAG", "_"),
   ("TGC", "C"), ("TGT", "C"), ("TGA", "_"), ("TGG", "W")]

/-- CODON_LIST = list(CODON_TABLE.keys()). -/
def CODON_LIST : List String := CODON_TABLE.map Prod.fst

/-- AA_LIST = [aa for aa in CODON_TABLE.values() if aa != "_"]
(a list with repetitions, exactly as in the source). -/
def AA_LIST : List String := (CODON_TABLE.map Prod.snd).filter (fun aa => aa ≠ "_")

/-- stop_codons = [codon for codon, aa in CODON_TABLE.items() if aa == "_"]. -/
def stop_codons : List String := (CODON_TABLE.filter (fun p => p.2 = "_")).map Prod.fst

/-- non_degenerate_codons: codons whose amino acid appears exactly once among
all CODON_TABLE values. -/
def non_degenerate_codons : List String :=
  (CODON_TABLE.filter (fun p => (CODON_TABLE.map Prod.snd).count p.2 = 1)).map Prod.fst

/-- AA_CONVERSIONS from gene_features.py: three-letter to one-letter
amino-acid abbreviations, as an association list in source order. -/
def AA_CONVERSIONS : List (String × String) :=
  [("Ala", "A"), ("Arg", "R"), ("Asn", "N"), ("Asp", "D"), ("Cys", "C"),
   ("Gln", "Q"), ("Glu", "E"), ("Gly", "G"), ("His", "H"), ("Ile", "I"),
   ("Leu", "L"), ("Lys", "K"), ("Met", "M"), ("Phe", "F"), ("Pro", "P"),
   ("Ser", "S"), ("Thr", "T"), ("Trp", "W"), ("Tyr", "Y"), ("Val", "V")]

/-- Key deduplication keeping the first occurrence, mimicking the key set and
key order of Python's `dict.fromkeys` on a list with repetitions.  The `seen`
accumulator holds the keys already emitted. -/
def dedupAux : List String → List String → List String
  | _, [] => []
  | seen, x :: xs =>
    if seen.contains x then dedupAux seen xs else x :: dedupAux (x :: seen) xs

/-- Key universe of `dict.fromkeys(AA_LIST, 0)`: the 20 amino-acid one-letter
codes in first-occurrence order. -/
def AA_KEYS : List String := dedupAux [] AA_LIST

/-- Key universe of the tcc tRNA dictionary: the sense codons, i.e.
`[tcc for tcc in CODON_LIST if tcc not in stop_codons]`. -/
def SENSE_CODONS : List String := CODON_LIST.filter (fun c => !decide (c ∈ stop_codons))

/-- Value lookup in CODON_TABLE; every call site passes a key of CODON_LIST,
for which the lookup succeeds, so the fallback value is never produced. -/
def lookupTable (c : String) : String := ((CODON_TABLE.lookup c).getD "?")

/-- Lexicographic order on char lists by code point, as Python compares
strings. -/
def charListLe : List Char → List Char → Bool
  | [], _ => true
  | _ :: _, [] => false
  | a :: as, b :: bs =>
    if a.toNat < b.toNat then true
    else if b.toNat < a.toNat then false
    else charListLe as bs

/-- String comparison by code points (Python's `<=` on strings). -/
def strLeB (a b : String) : Bool := charListLe a.data b.data

/-- Insertion into a sorted list of strings. -/
def insertSorted (x : String) : List String → List String
  | [] => [x]
  | y :: ys => if strLeB x y then x :: y :: ys else y :: insertSorted x ys

/-- Python's `sorted` on a list of strings (insertion sort; the claims never
depend on stability, only on the sorted order of distinct keys). -/
def sortStr (l : List String) : List String := l.foldr insertSorted []

/-- Non-overlapping codon windows: `self.seq[i : i + self.codon_length]` for
`i in range(0, len(self.seq), self.codon_length)`.  The fuel argument makes
the recursion structural (each step consumes at least one character when
`cl > 0`, so `s.length` fuel suffices); for `cl = 0` Python's `range` raises
before producing any window, and no Gene with codon length 0 is constructible
(`mkGene` fails first), so the empty result is never observed. -/
def chunksAux (cl : ℕ) : ℕ → List Char → List (List Char)
  | 0, _ => []
  | _, [] => []
  | fuel + 1, x :: xs => ((x :: xs).take cl) :: chunksAux cl fuel ((x :: xs).drop cl)

/-- The list of codon windows of a character list. -/
def chunks (cl : ℕ) (s : List Char) : List (List Char) := chunksAux cl s.length s

/-- A Gene as initialized by `Gene.__init__`: the stored fields. -/
structure Gene where
  seq : String
  codon_length : ℕ
  gene_id : String
  gene_product : String
deriving Repr

/-- Failures of `Gene.__init__`: `lengthMismatch` is the explicit
`Exception("Gene length is not a multiple of codon length.")`;
`zeroDivision` is the `ZeroDivisionError` raised by `len(gene_seq) % 0`
when the codon length is zero. -/
inductive GeneInitError
  | zeroDivision
  | lengthMismatch
deriving DecidableEq, Repr

/-- `Gene.__init__`: accept the sequence exactly when its length is a
multiple of the codon length; no other validation is performed. -/
def mkGene (gene_seq : String) (codon_length : ℕ) (gene_id : String)
    (gene_product : String) : Except GeneInitError Gene :=
  if codon_length = 0 then .error .zeroDivision
  else if gene_seq.length % codon_length = 0 then
    .ok ⟨gene_seq, codon_length, gene_id, gene_product⟩
  else .error .lengthMismatch

/-- The codon windows of a gene, as strings. -/
def geneWindows (g : Gene) : List String :=
  (chunks g.codon_length g.seq.data).map (fun l => String.mk l)

/-- `self.codon_dict` after `calculate_codon_counts`: the loop tallies each
window into its key when the window is a CODON_LIST key, so the final value at
a key is the number of windows equal to it; non-keys hold no entry (0 here). -/
def geneCodonDict (g : Gene) (c : String) : ℕ :=
  if c ∈ CODON_LIST then (geneWindows g).count c else 0

/-- `self.number_imprecise_codons`: windows that are not CODON_LIST keys. -/
def geneImprecise (g : Gene) : ℕ :=
  ((geneWindows g).filter (fun w => !decide (w ∈ CODON_LIST))).length

/-- `self.n_codons = len(gene_seq) / codon_length` (Python float division,
exact for constructible genes since the length is divisible). -/
def geneNCodons (g : Gene) : ℚ := (g.seq.length : ℚ) / (g.codon_length : ℚ)

/-- `self.percent_imprecise_codons = number_imprecise_codons / n_codons`:
Python raises `ZeroDivisionError` when `n_codons` is zero (a zero-length
sequence), modelled as `none`. -/
def genePercentImprecise (g : Gene) : Option ℚ :=
  if geneNCodons g = 0 then none
  else some ((geneImprecise g : ℚ) / geneNCodons g)

/-- Failures of the GeneSet aggregation methods: `zeroDivision` models an
uncaught Python `ZeroDivisionError`, `tooManySkipped` the explicit
`Exception("Too many skipped genes. ...")`. -/
inductive CCError
  | zeroDivision
  | tooManySkipped
deriving DecidableEq, Repr

/-- The gene-inclusion test of `GeneSet.codon_counts`:
`gene.percent_imprecise_codons <= threshold_imprecise` (as a total Boolean;
it is only consulted for genes with a nonzero codon count, where it agrees
with the Python comparison). -/
def inclQ (thI : ℚ) (g : Gene) : Bool :=
  decide ((geneImprecise g : ℚ) / geneNCodons g ≤ thI)

/-- The loop of `GeneSet.codon_counts` over `self.genes`, threading the
accumulator `(codon_dict, imprecise_codons, skipped_imprecise_genes)`:
each gene's codon counts are computed (raising if the gene has zero codons),
its imprecise codons are always added to the running total, and its counts
are merged exactly when its imprecise percentage is within the threshold,
its id being appended to the skipped list otherwise. -/
def aggGenes (thI : ℚ) (acc : (String → ℕ) × ℕ × List String) :
    List Gene → Except CCError ((String → ℕ) × ℕ × List String)
  | [] => .ok acc
  | g :: gs =>
    if geneNCodons g = 0 then .error .zeroDivision
    else if (geneImprecise g : ℚ) / geneNCodons g ≤ thI then
      aggGenes thI
        (fun c => acc.1 c + geneCodonDict g c, acc.2.1 + geneImprecise g, acc.2.2) gs
    else
      aggGenes thI (acc.1, acc.2.1 + geneImprecise g, acc.2.2 ++ [g.gene_id]) gs

/-- `GeneSet.codon_counts(threshold_imprecise, threshold_skipped_genes)`:
run the aggregation loop, then check
`len(skipped_imprecise_genes) / len(self.genes) > threshold_skipped_genes`
(raising `ZeroDivisionError` when the gene list is empty, and the
too-many-skipped `Exception` when the ratio exceeds the threshold). -/
def geneSetCodonCounts (genes : List Gene) (thI thS : ℚ) :
    Except CCError ((String → ℕ) × ℕ × List String) :=
  match aggGenes thI (fun _ => 0, 0, []) genes with
  | .error e => .error e
  | .ok r =>
    if genes.length = 0 then .error .zeroDivision
    else if (r.2.2.length : ℚ) / (genes.length : ℚ) > thS then .error .tooManySkipped
    else .ok r

/-- The normalization `{k: (v / total) for k, v in d.items()}` shared by
`codon_frequency` and `amino_acid_frequency`: Python raises
`ZeroDivisionError` when the total of the counts is zero (neither method
guards the total, unlike `tRNA_frequency`). -/
def freqOfCounts (keys : List String) (d : String → ℕ) : Except CCError (String → ℚ) :=
  if (keys.map d).sum = 0 then .error .zeroDivision
  else .ok (fun k => (d k : ℚ) / ((keys.map d).sum : ℚ))

/-- `GeneSet.codon_frequency`: compute the aggregate codon counts, then
divide every count by their total. -/
def geneSetCodonFrequency (genes : List Gene) (thI thS : ℚ) :
    Except CCError (String → ℚ) :=
  match geneSetCodonCounts genes thI thS with
  | .error e => .error e
  | .ok r => freqOfCounts CODON_LIST r.1

/-- The amino-acid counts derived from an aggregate codon-count mapping in
`GeneSet.amino_acid_counts`: for every non-stop codon, its count is added to
its encoded amino acid. -/
def aaCountsOf (d : String → ℕ) (a : String) : ℕ :=
  ((CODON_LIST.filter
      (fun c => !decide (c ∈ stop_codons) && (lookupTable c == a))).map d).sum

/-- `GeneSet.amino_acid_frequency`: compute the aggregate amino-acid counts
(via the codon counts), then divide every count by their total. -/
def geneSetAAFrequency (genes : List Gene) (thI thS : ℚ) :
    Except CCError (String → ℚ) :=
  match geneSetCodonCounts genes thI thS with
  | .error e => .error e
  | .ok r => freqOfCounts AA_KEYS (aaCountsOf r.1)

/-- `GeneSet.RSCU` on an aggregate codon-count mapping: every CODON_LIST key
starts at 0.0 and, when its count is nonzero, is set to
count / (synonymous total / number of synonyms). -/
def RSCU_of (d : String → ℕ) (c : String) : ℚ :=
  if c ∈ CODON_LIST then
    if d c ≠ 0 then
      (d c : ℚ) /
        (((((CODON_TABLE.filter (fun p => p.2 == lookupTable c)).map Prod.fst).map d).sum : ℚ) /
          (((CODON_TABLE.filter (fun p => p.2 == lookupTable c)).map Prod.fst).length : ℚ))
    else 0
  else 0

/-- `GeneSet.RSCU`: aggregate codon counts, then the RSCU mapping. -/
def geneSetRSCU (genes : List Gene) (thI thS : ℚ) : Except CCError (String → ℚ) :=
  match geneSetCodonCounts genes thI thS with
  | .error e => .error e
  | .ok r => .ok (RSCU_of r.1)

/-- A character of Python's regex class `\w` (restricted to ASCII; all gene
products exercised by the claims are ASCII). -/
def isWordChar (c : Char) : Bool := c.isAlphanum || c == '_'

/-- The anchored match `re.compile(r"tRNA-\w{3}\(\w{3}\)").match(s)` of
`GeneSet.tRNA_counts`: the string begins with `tRNA-`, three word characters,
an opening parenthesis, three word characters and a closing parenthesis;
anything may follow. -/
def matchesTRNAPattern (s : String) : Bool :=
  match s.data with
  | 't' :: 'R' :: 'N' :: 'A' :: '-' :: a :: b :: c :: '(' :: d :: e :: f :: ')' :: _ =>
    isWordChar a && isWordChar b && isWordChar c &&
      isWordChar d && isWordChar e && isWordChar f
  | _ => false

/-- Python `str.split` with a single-character separator, on char lists. -/
def splitOnChar (sep : Char) : List Char → List (List Char)
  | [] => [[]]
  | c :: cs =>
    if c = sep then [] :: splitOnChar sep cs
    else
      match splitOnChar sep cs with
      | [] => [[c]]
      | h :: t => (c :: h) :: t

/-- Python `s.split(sep)` for a one-character separator string. -/
def pySplit (sep : Char) (s : String) : List String :=
  (splitOnChar sep s.data).map (fun l => String.mk l)

/-- `gene.gene_product.split("-")[1].split("(")[0]` (the three-letter
amino-acid abbreviation of a matched tRNA product). -/
def extractAA3 (s : String) : String :=
  (pySplit '(' ((pySplit '-' s).getD 1 "")).getD 0 ""

/-- `gene.gene_product.split("(")[1].split(")")[0]` (the anticodon of a
matched tRNA product). -/
def extractAnticodon (s : String) : String :=
  (pySplit ')' ((pySplit '(' s).getD 1 "")).getD 0 ""

/-- Modelled from the spec: the function `reverse_complement` is imported by
gene_features.py from `.read_sequence`, but its definition is not among the
provided sources.  The spec describes it as "a reverse-complement function
over a nucleotide string" whose reverse complement of an anticodon "is the
codon it recognizes", satisfying the round-trip law that reverse-complementing
twice returns the original string; this is the standard base-complement map
(A↔T, C↔G) composed with string reversal. -/
def complementBase (c : Char) : Char :=
  if c = 'A' then 'T'
  else if c = 'T' then 'A'
  else if c = 'C' then 'G'
  else if c = 'G' then 'C'
  else c

/-- Modelled from the spec: reverse complement of a nucleotide string
(see `complementBase`). -/
def reverse_complement (s : String) : String :=
  String.mk ((s.data.map complementBase).reverse)

/-- Failure of `GeneSet.tRNA_counts`: the uncaught Python `KeyError` raised
by `AA_CONVERSIONS[aa_3]` for an unknown three-letter abbreviation or by
`self.tRNA_dict_tcc[tcc]` for a tcc outside the sense-codon key set. -/
inductive TRNAError
  | keyError
deriving DecidableEq, Repr

/-- One iteration of the `tRNA_counts` loop on the accumulator
`(tRNA_dict_aa, tRNA_dict_tcc)`: a gene whose product matches the tRNA
pattern has its three-letter amino acid converted (KeyError when absent from
AA_CONVERSIONS) and its reverse-complemented anticodon tallied (KeyError when
that codon is not a key of the tcc dictionary); other genes are ignored. -/
def tRNAStep (acc : (String → ℕ) × (String → ℕ)) (g : Gene) :
    Except TRNAError ((String → ℕ) × (String → ℕ)) :=
  if matchesTRNAPattern g.gene_product then
    match AA_CONVERSIONS.lookup (extractAA3 g.gene_product) with
    | none => .error .keyError
    | some aa1 =>
      if reverse_complement (extractAnticodon g.gene_product) ∈ SENSE_CODONS then
        .ok (fun a => if a = aa1 then acc.1 a + 1 else acc.1 a,
             fun c => if c = reverse_complement (extractAnticodon g.gene_product)
                      then acc.2 c + 1 else acc.2 c)
      else .error .keyError
  else .ok acc

/-- The `tRNA_counts` loop over the gene list. -/
def tRNAList (acc : (String → ℕ) × (String → ℕ)) :
    List Gene → Except TRNAError ((String → ℕ) × (String → ℕ))
  | [] => .ok acc
  | g :: gs =>
    match tRNAStep acc g with
    | .error e => .error e
    | .ok acc2 => tRNAList acc2 gs

/-- `GeneSet.tRNA_counts`: tally the matched tRNA products over all genes of
the set, and total the tcc dictionary into `self.total_tRNA`. -/
def tRNA_counts (genes : List Gene) :
    Except TRNAError ((String → ℕ) × (String → ℕ) × ℕ) :=
  match tRNAList (fun _ => 0, fun _ => 0) genes with
  | .error e => .error e
  | .ok r => .ok (r.1, r.2, (SENSE_CODONS.map r.2).sum)

/-- The `has_tRNAs` flag of `tRNA_counts`: when no gene product matches, the
method only reports "No tRNA genes found in the GeneSet." informationally. -/
def hasTRNAs (genes : List Gene) : Bool :=
  genes.any (fun g => matchesTRNAPattern g.gene_product)

/-- `GeneSet.tRNA_frequency`: both frequency dictionaries start at zero and
are normalized by `self.total_tRNA` only when that total is positive. -/
def tRNA_frequency (genes : List Gene) :
    Except TRNAError ((String → ℚ) × (String → ℚ)) :=
  match tRNA_counts genes with
  | .error e => .error e
  | .ok (daa, dtcc, total) =>
    if 0 < total then
      .ok (fun k => (daa k : ℚ) / (total : ℚ), fun k => (dtcc k : ℚ) / (total : ℚ))
    else .ok (fun _ => 0, fun _ => 0)

/-- `tRNAMetrics.virus_TAAI(include_virus_tRNA)`.  The scipy Spearman rank
correlation is an external floating-point routine and is abstracted as the
parameter `sp`; both per-amino-acid tRNA dictionaries have the 20 amino-acid
codes as their key set, so the union of keys in the pooled branch is AA_KEYS.
The result pairs `virusTAAI_hosttRNA` with the optional
`virusTAAI_totaltRNA`; the pooled branch divides by the pooled tRNA total,
raising `ZeroDivisionError` when that total is zero. -/
def virusTAAI (sp : List ℚ → List ℚ → ℚ) (include_virus_tRNA : Bool)
    (virus_aa_frq host_tRNA_frq_aa : String → ℚ)
    (host_tRNA_dict_aa virus_tRNA_dict_aa : String → ℕ) :
    Except CCError (ℚ × Option ℚ) :=
  let sorted_keys := sortStr AA_KEYS
  let v := sorted_keys.map virus_aa_frq
  let r1 := sp v (sorted_keys.map host_tRNA_frq_aa)
  if include_virus_tRNA then
    let total_dict : String → ℕ := fun k => host_tRNA_dict_aa k + virus_tRNA_dict_aa k
    if (AA_KEYS.map total_dict).sum = 0 then .error .zeroDivision
    else
      .ok (r1, some (sp v (sorted_keys.map
        (fun k => (total_dict k : ℚ) / ((AA_KEYS.map total_dict).sum : ℚ)))))
  else .ok (r1, none)

/-- `tRNAMetrics.virus_TCAI(skip_nondeg_codons, include_virus_tRNA)`,
with the scipy Spearman correlation abstracted as `sp` (see `virusTAAI`).
Stop codons (and, when requested, non-degenerate codons) are removed both
from the sorted key alignment and from the tcc dictionaries whose pooled
total normalizes the pooled branch; that branch raises `ZeroDivisionError`
when the pooled total is zero. -/
def virusTCAI (sp : List ℚ → List ℚ → ℚ) (skip_nondeg_codons include_virus_tRNA : Bool)
    (virus_codon_frq host_tRNA_frq_tcc : String → ℚ)
    (host_tRNA_dict_tcc virus_tRNA_dict_tcc : String → ℕ) :
    Except CCError (ℚ × Option ℚ) :=
  let irrelevant := if skip_nondeg_codons then non_degenerate_codons ++ stop_codons
                    else stop_codons
  let sorted_keys := (sortStr CODON_LIST).filter (fun k => !decide (k ∈ irrelevant))
  let v := sorted_keys.map virus_codon_frq
  let r1 := sp v (sorted_keys.map host_tRNA_frq_tcc)
  if include_virus_tRNA then
    let dict_keys := SENSE_CODONS.filter (fun k => !decide (k ∈ irrelevant))
    let total_dict : String → ℕ := fun k => host_tRNA_dict_tcc k + virus_tRNA_dict_tcc k
    if (dict_keys.map total_dict).sum = 0 then .error .zeroDivision
    else
      .ok (r1, some (sp v (sorted_keys.map
        (fun k => (total_dict k : ℚ) / ((dict_keys.map total_dict).sum : ℚ)))))
  else .ok (r1, none)

theorem list_sum_map_add {α : Type} (l : List α) (f g : α → ℕ) :
    (l.map (fun x => f x + g x)).sum = (l.map f).sum + (l.map g).sum := by
  induction l with
  | nil => simp
  | cons a l ih => simp [ih]; omega

theorem list_sum_map_cast (l : List String) (f : String → ℕ) :
    (((l.map f).sum : ℕ) : ℚ) = (l.map (fun x => (f x : ℚ))).sum := by
  induction l with
  | nil => simp
  | cons a l ih => simp [ih]

theorem list_sum_map_div (l : List String) (f : String → ℚ) (T : ℚ) :
    (l.map (fun x => f x / T)).sum = (l.map f).sum / T := by
  induction l with
  | nil => simp
  | cons a l ih => simp [ih, add_div]

theorem freq_sum_one (keys : List String) (d : String → ℕ)
    (hT : (keys.map d).sum ≠ 0) :
    (keys.map (fun k => (d k : ℚ) / (((keys.map d).sum : ℕ) : ℚ))).sum = 1 := by
  rw [list_sum_map_div, ← list_sum_map_cast]
  exact div_self (by exact_mod_cast hT)

theorem sum_indicator {L : List String} (hL : L.Nodup) (w : String) :
    (L.map (fun c => if w = c then 1 else 0)).sum = if w ∈ L then 1 else 0 := by
  induction L with
  | nil => simp
  | cons a L ih =>
    rcases List.nodup_cons.mp hL with ⟨ha, hL'⟩
    by_cases h : a = w
    · subst h
      have : a ∉ L := ha
      simp [ih hL', this]
    · simp [Ne.symm h, ih hL', List.mem_cons, h]

theorem sum_count {L : List String} (hL : L.Nodup) (ws : List String) :
    (L.map (fun c => ws.count c)).sum = (ws.filter (fun w => decide (w ∈ L))).length := by
  induction ws with
  | nil => simp
  | cons w ws ih =>
    have hcnt : (L.map (fun c => (w :: ws).count c)).sum
        = (L.map (fun c => ws.count c + if w = c then 1 else 0)).sum := by
      apply congrArg
      apply List.map_congr_left
      intro c _
      simp [List.count_cons]
    rw [hcnt, list_sum_map_add, ih, sum_indicator hL w, List.filter_cons]
    by_cases hw : w ∈ L
    · simp [hw]
    · simp [hw]

theorem filter_length_partition {α : Type} (l : List α) (p : α → Bool) :
    (l.filter p).length + (l.filter (fun a => !p a)).length = l.length := by
  induction l with
  | nil => rfl
  | cons a l ih => cases h : p a <;> simp [List.filter_cons, h] <;> omega

theorem filter_map_sum_partition {α : Type} (l : List α) (p : α → Bool) (f : α → ℕ) :
    ((l.filter p).map f).sum + ((l.filter (fun a => !p a)).map f).sum = (l.map f).sum := by
  induction l with
  | nil => rfl
  | cons a l ih => cases h : p a <;> simp [List.filter_cons, h] <;> omega

theorem sum_comm_list (L : List String) (G : List Gene) (f : Gene → String → ℕ) :
    (L.map (fun c => (G.map (fun g => f g c)).sum)).sum
      = (G.map (fun g => (L.map (f g)).sum)).sum := by
  induction G with
  | nil => simp
  | cons g G ih =>
    have : (L.map (fun c => (((g :: G).map (fun g2 => f g2 c))).sum))
        = (L.map (fun c => f g c + (G.map (fun g2 => f g2 c)).sum)) := by simp
    rw [this, list_sum_map_add, ih]
    simp

theorem codon_list_nodup : CODON_LIST.Nodup := by decide

/-- Per-gene accounting: the codon-count mapping of a single gene sums, over
the 64 codons, to the number of codon windows minus the imprecise windows. -/
theorem gene_codon_sum (g : Gene) :
    (CODON_LIST.map (geneCodonDict g)).sum + geneImprecise g = (geneWindows g).length := by
  have h1 : (CODON_LIST.map (geneCodonDict g)).sum
      = (CODON_LIST.map (fun c => (geneWindows g).count c)).sum := by
    apply congrArg
    apply List.map_congr_left
    intro c hc
    simp [geneCodonDict, hc]
  rw [h1, sum_count codon_list_nodup, geneImprecise]
  exact filter_length_partition (geneWindows g) (fun w => decide (w ∈ CODON_LIST))

theorem percent_some_of_ncodons (g : Gene) (h : geneNCodons g ≠ 0) :
    genePercentImprecise g = some ((geneImprecise g : ℚ) / geneNCodons g) := by
  simp [genePercentImprecise, h]

theorem aggGenes_ok (thI : ℚ) (gs : List Gene) :
    ∀ acc : (String → ℕ) × ℕ × List String,
      (∀ g ∈ gs, geneNCodons g ≠ 0) →
      aggGenes thI acc gs = .ok
        (fun c => acc.1 c + ((gs.filter (inclQ thI)).map (fun g => geneCodonDict g c)).sum,
         acc.2.1 + (gs.map geneImprecise).sum,
         acc.2.2 ++ (gs.filter (fun g => !inclQ thI g)).map (fun g => g.gene_id)) := by
  induction gs with
  | nil => intro acc _; simp [aggGenes]
  | cons g gs ih =>
    intro acc h
    have hg : geneNCodons g ≠ 0 := h g (by simp)
    have hgs : ∀ g2 ∈ gs, geneNCodons g2 ≠ 0 := fun g2 hm => h g2 (by simp [hm])
    rw [aggGenes, if_neg hg]
    by_cases hic : (geneImprecise g : ℚ) / geneNCodons g ≤ thI
    · have hb : inclQ thI g = true := by simpa [inclQ] using hic
      rw [if_pos hic, ih _ hgs]
      simp only [List.filter_cons, hb, Bool.not_true, if_true, if_false,
        List.map_cons, List.sum_cons]
      congr 1
      refine Prod.ext ?_ (Prod.ext ?_ ?_)
      · funext c; simp; omega
      · simp; omega
      · simp
    · have hb : inclQ thI g = false := by simp [inclQ, hic]
      rw [if_neg hic, ih _ hgs]
      simp only [List.filter_cons, hb, Bool.not_false, if_true, if_false,
        List.map_cons, List.sum_cons]
      congr 1
      refine Prod.ext ?_ (Prod.ext ?_ ?_)
      · simp
      · simp; omega
      · simp

theorem aggGenes_ok_ncodons (thI : ℚ) (gs : List Gene) :
    ∀ (acc : (String → ℕ) × ℕ × List String) (r : (String → ℕ) × ℕ × List String),
      aggGenes thI acc gs = .ok r → ∀ g ∈ gs, geneNCodons g ≠ 0 := by
  induction gs with
  | nil => simp
  | cons g gs ih =>
    intro acc r h g2 hg2
    by_cases h0 : geneNCodons g = 0
    · rw [aggGenes, if_pos h0] at h
      exact absurd h (by simp)
    · rcases List.mem_cons.mp hg2 with rfl | hm
      · exact h0
      · rw [aggGenes, if_neg h0] at h
        by_cases hic : (geneImprecise g : ℚ) / geneNCodons g ≤ thI
        · rw [if_pos hic] at h
          exact ih _ _ h g2 hm
        · rw [if_neg hic] at h
          exact ih _ _ h g2 hm

/-- Full characterization of `GeneSet.codon_counts` on a nonempty gene list in
which every gene has at least one codon: the call fails with the
too-many-skipped error exactly when the skipped ratio exceeds the threshold,
and otherwise returns the sums over the included genes, the total imprecise
count over all genes, and the ids of the excluded genes. -/
theorem geneSetCodonCounts_eq (genes : List Gene) (thI thS : ℚ)
    (hne : genes ≠ [])
    (hn : ∀ g ∈ genes, geneNCodons g ≠ 0) :
    geneSetCodonCounts genes thI thS =
      if (((genes.filter (fun g => !inclQ thI g)).length : ℚ) / (genes.length : ℚ)) > thS
      then .error .tooManySkipped
      else .ok
        (fun c => ((genes.filter (inclQ thI)).map (fun g => geneCodonDict g c)).sum,
         (genes.map geneImprecise).sum,
         (genes.filter (fun g => !inclQ thI g)).map (fun g => g.gene_id)) := by
  rw [geneSetCodonCounts, aggGenes_ok thI genes _ hn]
  have hlen : genes.length ≠ 0 := by
    simpa [List.length_eq_zero] using hne
  simp only [hlen, if_false, List.length_append, List.nil_append, List.length_map]
  by_cases hr : (((genes.filter (fun g => !inclQ thI g)).length : ℚ) / (genes.length : ℚ)) > thS
  · rw [if_pos ?_, if_pos hr]
    simpa using hr
  · rw [if_neg ?_, if_neg hr]
    · congr 1
      refine Prod.ext ?_ (Prod.ext ?_ ?_)
      · funext c; simp
      · simp
      · simp
    · simpa using hr

theorem geneSetCodonCounts_ok_inv (genes : List Gene) (thI thS : ℚ)
    (d : String → ℕ) (imp : ℕ) (sk : List String)
    (h : geneSetCodonCounts genes thI thS = .ok (d, imp, sk)) :
    genes ≠ [] ∧ (∀ g ∈ genes, geneNCodons g ≠ 0) ∧
    d = (fun c => ((genes.filter (inclQ thI)).map (fun g => geneCodonDict g c)).sum) ∧
    imp = (genes.map geneImprecise).sum ∧
    sk = (genes.filter (fun g => !inclQ thI g)).map (fun g => g.gene_id) := by
  have hne : genes ≠ [] := by
    intro hnil
    subst hnil
    simp [geneSetCodonCounts, aggGenes] at h
  have hn : ∀ g ∈ genes, geneNCodons g ≠ 0 := by
    rw [geneSetCodonCounts] at h
    rcases hA : aggGenes thI (fun _ => 0, 0, []) genes with e | r
    · rw [hA] at h
      exact absurd h (by simp)
    · rw [hA] at h
      exact aggGenes_ok_ncodons thI genes _ _ hA
  refine ⟨hne, hn, ?_⟩
  rw [geneSetCodonCounts_eq genes thI thS hne hn] at h
  by_cases hr : (((genes.filter (fun g => !inclQ thI g)).length : ℚ) / (genes.length : ℚ)) > thS
  · rw [if_pos hr] at h
    exact absurd h (by simp)
  · rw [if_neg hr] at h
    have heq : ((fun c => ((genes.filter (inclQ thI)).map (fun g => geneCodonDict g c)).sum),
        (genes.map geneImprecise).sum,
        (genes.filter (fun g => !inclQ thI g)).map (fun g => g.gene_id))
        = ((d, imp, sk) : (String → ℕ) × ℕ × List String) := Except.ok.inj h
    exact ⟨(congrArg Prod.fst heq).symm, (congrArg (fun p => p.2.1) heq).symm,
      (congrArg (fun p => p.2.2) heq).symm⟩

/-- C9: for a GeneSet whose retained gene list is empty, `codon_counts`
raises an uncaught `ZeroDivisionError` at the skipped-gene-ratio check
`len(self.skipped_imprecise_genes) / len(self.genes)`, rather than returning
an all-zero aggregate or the documented too-many-skipped error. -/
theorem codon_counts_empty_geneset_zero_division (thI thS : ℚ) :
    geneSetCodonCounts [] thI thS = .error .zeroDivision := by
  simp [geneSetCodonCounts, aggGenes]

theorem ncodons_ne_zero (g : Gene) (h1 : g.seq.length ≠ 0) (h2 : g.codon_length ≠ 0) :
    geneNCodons g ≠ 0 := by
  rw [geneNCodons]
  exact div_ne_zero (by exact_mod_cast h1) (by exact_mod_cast h2)

/-- C5 (amended): on a GeneSet with a nonempty retained gene list all of
whose genes have a nonzero sequence length, `codon_counts` fails with the
too-many-skipped error exactly when
`(count of imprecision-skipped genes) / (count of retained genes)` is
strictly greater than the skipped-genes threshold; at or below that bound the
aggregate is produced, and it includes a gene's counts exactly when that
gene's imprecise-codon percentage is within the imprecision threshold (the
`inclQ` comparison).  The nonzero-length proviso is forced: a zero-length
gene (accepted by `Gene.__init__` since 0 is a multiple of the codon length)
makes `codon_counts` raise `ZeroDivisionError` instead, see the
counterexample. -/
theorem codon_counts_thresholds (genes : List Gene) (thI thS : ℚ)
    (hne : genes ≠ [])
    (hn : ∀ g ∈ genes, g.seq.length ≠ 0 ∧ g.codon_length ≠ 0) :
    (geneSetCodonCounts genes thI thS = .error .tooManySkipped ↔
      (((genes.filter (fun g => !inclQ thI g)).length : ℚ) / (genes.length : ℚ)) > thS) ∧
    ((((genes.filter (fun g => !inclQ thI g)).length : ℚ) / (genes.length : ℚ)) ≤ thS →
      geneSetCodonCounts genes thI thS = .ok
        (fun c => ((genes.filter (inclQ thI)).map (fun g => geneCodonDict g c)).sum,
         (genes.map geneImprecise).sum,
         (genes.filter (fun g => !inclQ thI g)).map (fun g => g.gene_id))) := by
  have hn' : ∀ g ∈ genes, geneNCodons g ≠ 0 :=
    fun g hg => ncodons_ne_zero g (hn g hg).1 (hn g hg).2
  rw [geneSetCodonCounts_eq genes thI thS hne hn']
  by_cases hr : (((genes.filter (fun g => !inclQ thI g)).length : ℚ) / (genes.length : ℚ)) > thS
  · rw [if_pos hr]
    exact ⟨⟨fun _ => hr, fun _ => rfl⟩, fun hle => absurd hr (not_lt.mpr hle)⟩
  · rw [if_neg hr]
    exact ⟨⟨fun h => absurd h (by simp), fun h => absurd h hr⟩, fun _ => rfl⟩

/-- Witness for `codon_counts_thresholds` at the one-gene set `["AAA"]` with
the default thresholds 0 and 1/2. -/
theorem codon_counts_thresholds_witness :
    (geneSetCodonCounts [⟨"AAA", 3, "b", ""⟩] 0 (1/2) = .error .tooManySkipped ↔
      (((([⟨"AAA", 3, "b", ""⟩] : List Gene).filter (fun g => !inclQ 0 g)).length : ℚ) /
        (([⟨"AAA", 3, "b", ""⟩] : List Gene).length : ℚ)) > 1/2) ∧
    ((((([⟨"AAA", 3, "b", ""⟩] : List Gene).filter (fun g => !inclQ 0 g)).length : ℚ) /
        (([⟨"AAA", 3, "b", ""⟩] : List Gene).length : ℚ)) ≤ 1/2 →
      geneSetCodonCounts [⟨"AAA", 3, "b", ""⟩] 0 (1/2) = .ok
        (fun c => ((([⟨"AAA", 3, "b", ""⟩] : List Gene).filter (inclQ 0)).map
            (fun g => geneCodonDict g c)).sum,
         (([⟨"AAA", 3, "b", ""⟩] : List Gene).map geneImprecise).sum,
         (([⟨"AAA", 3, "b", ""⟩] : List Gene).filter (fun g => !inclQ 0 g)).map
           (fun g => g.gene_id))) :=
  codon_counts_thresholds [⟨"AAA", 3, "b", ""⟩] 0 (1/2) (by simp) (by decide)

/-- C5 counterexample: a zero-length gene is accepted at construction
(0 is a multiple of 3) but `codon_counts` then raises `ZeroDivisionError`
while computing its imprecise percentage, even though the skipped-gene ratio
bound is satisfied — contradicting the claim that the aggregate is produced
at or below that bound. -/
theorem codon_counts_empty_gene_cex :
    mkGene "" 3 "g" "" = .ok ⟨"", 3, "g", ""⟩ ∧
    geneSetCodonCounts [⟨"", 3, "g", ""⟩] 0 (1/2) = .error .zeroDivision := by
  constructor
  · rfl
  · have h0 : geneNCodons ⟨"", 3, "g", ""⟩ = 0 := by
      simp [geneNCodons]
    simp [geneSetCodonCounts, aggGenes, h0]

/-- C3 (amended): for a single Gene, the codon-count mapping sums over the 64
codons to the number of codon windows minus the imprecise windows.  For a
GeneSet aggregate, the sum of the aggregate mapping plus the recorded
imprecise total plus the precise codons of the imprecision-skipped genes
equals the total number of codon windows processed; the originally claimed
equality (aggregate sum = total windows - imprecise) therefore holds exactly
when every skipped gene contributes no precise codons, and fails otherwise
(see the counterexample). -/
theorem codon_sum_accounting (g : Gene) (genes : List Gene) (thI thS : ℚ)
    (d : String → ℕ) (imp : ℕ) (sk : List String)
    (h : geneSetCodonCounts genes thI thS = .ok (d, imp, sk)) :
    ((CODON_LIST.map (geneCodonDict g)).sum + geneImprecise g = (geneWindows g).length) ∧
    ((CODON_LIST.map d).sum + imp
        + ((genes.filter (fun g2 => !inclQ thI g2)).map
            (fun g2 => (CODON_LIST.map (geneCodonDict g2)).sum)).sum
      = (genes.map (fun g2 => (geneWindows g2).length)).sum) := by
  refine ⟨gene_codon_sum g, ?_⟩
  obtain ⟨-, -, hd, himp, -⟩ := geneSetCodonCounts_ok_inv genes thI thS d imp sk h
  subst hd himp
  rw [sum_comm_list]
  have hpart := filter_map_sum_partition genes (inclQ thI)
      (fun g2 => (CODON_LIST.map (geneCodonDict g2)).sum)
  have hcong : (genes.map
        (fun g2 => (CODON_LIST.map (geneCodonDict g2)).sum + geneImprecise g2))
      = genes.map (fun g2 => (geneWindows g2).length) :=
    List.map_congr_left (fun g2 _ => gene_codon_sum g2)
  have hsum := list_sum_map_add genes
      (fun g2 => (CODON_LIST.map (geneCodonDict g2)).sum) geneImprecise
  rw [hcong] at hsum
  omega

/-- Witness for `codon_sum_accounting` at the one-gene set `["AAA"]` with the
default thresholds. -/
theorem codon_sum_accounting_witness :
    ((CODON_LIST.map (geneCodonDict ⟨"AAA", 3, "b", ""⟩)).sum
        + geneImprecise ⟨"AAA", 3, "b", ""⟩
      = (geneWindows ⟨"AAA", 3, "b", ""⟩).length) ∧
    ((CODON_LIST.map (fun c => ((([⟨"AAA", 3, "b", ""⟩] : List Gene).filter (inclQ 0)).map
          (fun g => geneCodonDict g c)).sum)).sum
        + (([⟨"AAA", 3, "b", ""⟩] : List Gene).map geneImprecise).sum
        + ((([⟨"AAA", 3, "b", ""⟩] : List Gene).filter (fun g2 => !inclQ 0 g2)).map
            (fun g2 => (CODON_LIST.map (geneCodonDict g2)).sum)).sum
      = (([⟨"AAA", 3, "b", ""⟩] : List Gene).map (fun g2 => (geneWindows g2).length)).sum) := by
  have hincl : inclQ 0 (⟨"AAA", 3, "b", ""⟩ : Gene) = true := by
    have h1 : geneImprecise (⟨"AAA", 3, "b", ""⟩ : Gene) = 0 := by decide
    have h2 : geneNCodons (⟨"AAA", 3, "b", ""⟩ : Gene) = 1 := by
      rw [geneNCodons]
      norm_num [show ("AAA" : String).length = 3 from rfl]
    simp [inclQ, h1, h2]
  have hproof : geneSetCodonCounts [⟨"AAA", 3, "b", ""⟩] 0 (1/2) = .ok
      (fun c => ((([⟨"AAA", 3, "b", ""⟩] : List Gene).filter (inclQ 0)).map
          (fun g => geneCodonDict g c)).sum,
       (([⟨"AAA", 3, "b", ""⟩] : List Gene).map geneImprecise).sum,
       (([⟨"AAA", 3, "b", ""⟩] : List Gene).filter (fun g => !inclQ 0 g)).map
         (fun g => g.gene_id)) := by
    rw [geneSetCodonCounts_eq [⟨"AAA", 3, "b", ""⟩] 0 (1/2) (by simp) ?_]
    · rw [if_neg (by norm_num [hincl])]
    · intro g hg
      rw [List.mem_singleton.mp hg]
      exact ncodons_ne_zero _ (by decide) (by decide)
  exact codon_sum_accounting ⟨"AAA", 3, "b", ""⟩ [⟨"AAA", 3, "b", ""⟩] 0 (1/2) _ _ _ hproof

/-- C3 counterexample: aggregating `["ATGNNN", "AAA"]` with zero imprecision
tolerance skips the first gene (50% imprecise) but still records its
imprecise codon; the aggregate sums to 1 while total windows minus imprecise
is 3 - 1 = 2, refuting the claimed equality for GeneSet aggregates. -/
theorem codon_sum_accounting_cex :
    ∃ d imp sk,
      geneSetCodonCounts [⟨"ATGNNN", 3, "a", ""⟩, ⟨"AAA", 3, "b", ""⟩] 0 (1/2)
        = .ok (d, imp, sk) ∧
      (CODON_LIST.map d).sum = 1 ∧ imp = 1 ∧
      (([⟨"ATGNNN", 3, "a", ""⟩, ⟨"AAA", 3, "b", ""⟩] : List Gene).map
        (fun g => (geneWindows g).length)).sum = 3 ∧
      (CODON_LIST.map d).sum ≠
        (([⟨"ATGNNN", 3, "a", ""⟩, ⟨"AAA", 3, "b", ""⟩] : List Gene).map
          (fun g => (geneWindows g).length)).sum - imp := by
  have hA : inclQ 0 (⟨"ATGNNN", 3, "a", ""⟩ : Gene) = false := by
    have h1 : geneImprecise (⟨"ATGNNN", 3, "a", ""⟩ : Gene) = 1 := by decide
    have h2 : geneNCodons (⟨"ATGNNN", 3, "a", ""⟩ : Gene) = 2 := by
      rw [geneNCodons]
      norm_num [show ("ATGNNN" : String).length = 6 from rfl]
    rw [inclQ, h1, h2]
    norm_num
  have hB : inclQ 0 (⟨"AAA", 3, "b", ""⟩ : Gene) = true := by
    have h1 : geneImprecise (⟨"AAA", 3, "b", ""⟩ : Gene) = 0 := by decide
    have h2 : geneNCodons (⟨"AAA", 3, "b", ""⟩ : Gene) = 1 := by
      rw [geneNCodons]
      norm_num [show ("AAA" : String).length = 3 from rfl]
    simp [inclQ, h1, h2]
  have hproof : geneSetCodonCounts [⟨"ATGNNN", 3, "a", ""⟩, ⟨"AAA", 3, "b", ""⟩] 0 (1/2)
      = .ok
      (fun c => ((([⟨"ATGNNN", 3, "a", ""⟩, ⟨"AAA", 3, "b", ""⟩] : List Gene).filter
          (inclQ 0)).map (fun g => geneCodonDict g c)).sum,
       (([⟨"ATGNNN", 3, "a", ""⟩, ⟨"AAA", 3, "b", ""⟩] : List Gene).map geneImprecise).sum,
       (([⟨"ATGNNN", 3, "a", ""⟩, ⟨"AAA", 3, "b", ""⟩] : List Gene).filter
          (fun g => !inclQ 0 g)).map (fun g => g.gene_id)) := by
    rw [geneSetCodonCounts_eq _ 0 (1/2) (by simp) ?_]
    · rw [if_neg (by norm_num [hA, hB])]
    · intro g hg
      rcases List.mem_cons.mp hg with rfl | hg2
      · exact ncodons_ne_zero _ (by decide) (by decide)
      · rw [List.mem_singleton.mp hg2]
        exact ncodons_ne_zero _ (by decide) (by decide)
  refine ⟨_, _, _, hproof, ?_, ?_, ?_, ?_⟩
  · have hfil : ([⟨"ATGNNN", 3, "a", ""⟩, ⟨"AAA", 3, "b", ""⟩] : List Gene).filter (inclQ 0)
        = [⟨"AAA", 3, "b", ""⟩] := by
      simp [List.filter_cons, hA, hB]
    rw [hfil]
    decide
  · decide
  · decide
  · have hfil : ([⟨"ATGNNN", 3, "a", ""⟩, ⟨"AAA", 3, "b", ""⟩] : List Gene).filter (inclQ 0)
        = [⟨"AAA", 3, "b", ""⟩] := by
      simp [List.filter_cons, hA, hB]
    rw [hfil]
    decide

theorem geneSetCodonFrequency_of_ok (genes : List Gene) (thI thS : ℚ)
    (d : String → ℕ) (imp : ℕ) (sk : List String)
    (h : geneSetCodonCounts genes thI thS = .ok (d, imp, sk)) :
    geneSetCodonFrequency genes thI thS = freqOfCounts CODON_LIST d := by
  rw [geneSetCodonFrequency, h]

theorem geneSetAAFrequency_of_ok (genes : List Gene) (thI thS : ℚ)
    (d : String → ℕ) (imp : ℕ) (sk : List String)
    (h : geneSetCodonCounts genes thI thS = .ok (d, imp, sk)) :
    geneSetAAFrequency genes thI thS = freqOfCounts AA_KEYS (aaCountsOf d) := by
  rw [geneSetAAFrequency, h]

theorem freqOfCounts_zero (keys : List String) (d : String → ℕ)
    (h : (keys.map d).sum = 0) :
    freqOfCounts keys d = .error .zeroDivision := by
  rw [freqOfCounts, if_pos h]

theorem freqOfCounts_sum_one (keys : List String) (d : String → ℕ)
    (h : (keys.map d).sum ≠ 0) :
    ∃ f, freqOfCounts keys d = .ok f ∧ (keys.map f).sum = 1 := by
  refine ⟨_, by rw [freqOfCounts, if_neg h], ?_⟩
  exact freq_sum_one keys d h

/-- C1 (amended): given a successfully produced aggregate codon-count
mapping, each derived frequency mapping (codon frequency and amino-acid
frequency) sums to exactly 1 over its key universe when its source total is
nonzero; when the source total is zero, however, the method raises
`ZeroDivisionError` — only `tRNA_frequency` has a zero guard — rather than
leaving the mapping at its initialized zero state. -/
theorem frequency_total_behavior (genes : List Gene) (thI thS : ℚ)
    (d : String → ℕ) (imp : ℕ) (sk : List String)
    (h : geneSetCodonCounts genes thI thS = .ok (d, imp, sk)) :
    (((CODON_LIST.map d).sum = 0 →
        geneSetCodonFrequency genes thI thS = .error .zeroDivision) ∧
     ((CODON_LIST.map d).sum ≠ 0 →
        ∃ f, geneSetCodonFrequency genes thI thS = .ok f ∧ (CODON_LIST.map f).sum = 1)) ∧
    (((AA_KEYS.map (aaCountsOf d)).sum = 0 →
        geneSetAAFrequency genes thI thS = .error .zeroDivision) ∧
     ((AA_KEYS.map (aaCountsOf d)).sum ≠ 0 →
        ∃ f, geneSetAAFrequency genes thI thS = .ok f ∧ (AA_KEYS.map f).sum = 1)) := by
  rw [geneSetCodonFrequency_of_ok genes thI thS d imp sk h,
      geneSetAAFrequency_of_ok genes thI thS d imp sk h]
  exact ⟨⟨freqOfCounts_zero CODON_LIST d, freqOfCounts_sum_one CODON_LIST d⟩,
         ⟨freqOfCounts_zero AA_KEYS (aaCountsOf d), freqOfCounts_sum_one AA_KEYS (aaCountsOf d)⟩⟩

/-- Witness for `frequency_total_behavior` at the one-gene set `["AAA"]`
with the default thresholds. -/
theorem frequency_total_behavior_witness :
    (((CODON_LIST.map (fun c => ((([⟨"AAA", 3, "b", ""⟩] : List Gene).filter (inclQ 0)).map
          (fun g => geneCodonDict g c)).sum)).sum = 0 →
        geneSetCodonFrequency [⟨"AAA", 3, "b", ""⟩] 0 (1/2) = .error .zeroDivision) ∧
     ((CODON_LIST.map (fun c => ((([⟨"AAA", 3, "b", ""⟩] : List Gene).filter (inclQ 0)).map
          (fun g => geneCodonDict g c)).sum)).sum ≠ 0 →
        ∃ f, geneSetCodonFrequency [⟨"AAA", 3, "b", ""⟩] 0 (1/2) = .ok f ∧
          (CODON_LIST.map f).sum = 1)) ∧
    (((AA_KEYS.map (aaCountsOf (fun c => ((([⟨"AAA", 3, "b", ""⟩] : List Gene).filter
          (inclQ 0)).map (fun g => geneCodonDict g c)).sum))).sum = 0 →
        geneSetAAFrequency [⟨"AAA", 3, "b", ""⟩] 0 (1/2) = .error .zeroDivision) ∧
     ((AA_KEYS.map (aaCountsOf (fun c => ((([⟨"AAA", 3, "b", ""⟩] : List Gene).filter
          (inclQ 0)).map (fun g => geneCodonDict g c)).sum))).sum ≠ 0 →
        ∃ f, geneSetAAFrequency [⟨"AAA", 3, "b", ""⟩] 0 (1/2) = .ok f ∧
          (AA_KEYS.map f).sum = 1)) := by
  have hincl : inclQ 0 (⟨"AAA", 3, "b", ""⟩ : Gene) = true := by
    have h1 : geneImprecise (⟨"AAA", 3, "b", ""⟩ : Gene) = 0 := by decide
    have h2 : geneNCodons (⟨"AAA", 3, "b", ""⟩ : Gene) = 1 := by
      rw [geneNCodons]
      norm_num [show ("AAA" : String).length = 3 from rfl]
    simp [inclQ, h1, h2]
  have hproof : geneSetCodonCounts [⟨"AAA", 3, "b", ""⟩] 0 (1/2) = .ok
      (fun c => ((([⟨"AAA", 3, "b", ""⟩] : List Gene).filter (inclQ 0)).map
          (fun g => geneCodonDict g c)).sum,
       (([⟨"AAA", 3, "b", ""⟩] : List Gene).map geneImprecise).sum,
       (([⟨"AAA", 3, "b", ""⟩] : List Gene).filter (fun g => !inclQ 0 g)).map
         (fun g => g.gene_id)) := by
    rw [geneSetCodonCounts_eq [⟨"AAA", 3, "b", ""⟩] 0 (1/2) (by simp) ?_]
    · rw [if_neg (by norm_num [hincl])]
    · intro g hg
      rw [List.mem_singleton.mp hg]
      exact ncodons_ne_zero _ (by decide) (by decide)
  exact frequency_total_behavior [⟨"AAA", 3, "b", ""⟩] 0 (1/2) _ _ _ hproof

/-- C1 counterexample: the single gene `NNN` with imprecision tolerance 1 and
skipped-gene tolerance 1 yields a successful aggregate whose total is zero
(its only codon is imprecise), and `codon_frequency` then reaches the
unguarded division and raises `ZeroDivisionError`, instead of leaving the
frequency mapping at its initialized zero state. -/
theorem frequency_zero_total_cex :
    ∃ d imp sk,
      geneSetCodonCounts [⟨"NNN", 3, "g", ""⟩] 1 1 = .ok (d, imp, sk) ∧
      (CODON_LIST.map d).sum = 0 ∧
      geneSetCodonFrequency [⟨"NNN", 3, "g", ""⟩] 1 1 = .error .zeroDivision := by
  have hincl : inclQ 1 (⟨"NNN", 3, "g", ""⟩ : Gene) = true := by
    have h1 : geneImprecise (⟨"NNN", 3, "g", ""⟩ : Gene) = 1 := by decide
    have h2 : geneNCodons (⟨"NNN", 3, "g", ""⟩ : Gene) = 1 := by
      rw [geneNCodons]
      norm_num [show ("NNN" : String).length = 3 from rfl]
    simp [inclQ, h1, h2]
  have hproof : geneSetCodonCounts [⟨"NNN", 3, "g", ""⟩] 1 1 = .ok
      (fun c => ((([⟨"NNN", 3, "g", ""⟩] : List Gene).filter (inclQ 1)).map
          (fun g => geneCodonDict g c)).sum,
       (([⟨"NNN", 3, "g", ""⟩] : List Gene).map geneImprecise).sum,
       (([⟨"NNN", 3, "g", ""⟩] : List Gene).filter (fun g => !inclQ 1 g)).map
         (fun g => g.gene_id)) := by
    rw [geneSetCodonCounts_eq [⟨"NNN", 3, "g", ""⟩] 1 1 (by simp) ?_]
    · rw [if_neg (by norm_num [hincl])]
    · intro g hg
      rw [List.mem_singleton.mp hg]
      exact ncodons_ne_zero _ (by decide) (by decide)
  have hfil : ([⟨"NNN", 3, "g", ""⟩] : List Gene).filter (inclQ 1)
      = [⟨"NNN", 3, "g", ""⟩] := by
    simp [hincl]
  have htot : (CODON_LIST.map (fun c => ((([⟨"NNN", 3, "g", ""⟩] : List Gene).filter
      (inclQ 1)).map (fun g => geneCodonDict g c)).sum)).sum = 0 := by
    rw [hfil]
    decide
  refine ⟨_, _, _, hproof, htot, ?_⟩
  rw [geneSetCodonFrequency_of_ok _ 1 1 _ _ _ hproof]
  exact freqOfCounts_zero CODON_LIST _ htot

theorem geneSetRSCU_of_ok (genes : List Gene) (thI thS : ℚ)
    (d : String → ℕ) (imp : ℕ) (sk : List String)
    (h : geneSetCodonCounts genes thI thS = .ok (d, imp, sk)) :
    geneSetRSCU genes thI thS = .ok (RSCU_of d) := by
  rw [geneSetRSCU, h]

/-- C4: the gene set holding the single 12-base gene `ATGTCATCCGAA` yields
codon counts ATG:1, TCA:1, TCC:1, GAA:1 and 0 elsewhere; amino-acid counts
M:1, S:2, E:1 and 0 elsewhere; codon frequency of ATG = 1/4; and RSCU values
ATG:1, TCA:3, TCC:3, GAA:2 and 0 elsewhere. -/
theorem scenario_ATGTCATCCGAA :
    ∃ d imp sk f r,
      geneSetCodonCounts [⟨"ATGTCATCCGAA", 3, "", ""⟩] 0 (1/2) = .ok (d, imp, sk) ∧
      geneSetCodonFrequency [⟨"ATGTCATCCGAA", 3, "", ""⟩] 0 (1/2) = .ok f ∧
      geneSetRSCU [⟨"ATGTCATCCGAA", 3, "", ""⟩] 0 (1/2) = .ok r ∧
      d "ATG" = 1 ∧ d "TCA" = 1 ∧ d "TCC" = 1 ∧ d "GAA" = 1 ∧
      (∀ c ∈ CODON_LIST, c ∉ (["ATG", "TCA", "TCC", "GAA"] : List String) → d c = 0) ∧
      aaCountsOf d "M" = 1 ∧ aaCountsOf d "S" = 2 ∧ aaCountsOf d "E" = 1 ∧
      (∀ a ∈ AA_KEYS, a ∉ (["M", "S", "E"] : List String) → aaCountsOf d a = 0) ∧
      f "ATG" = 1/4 ∧
      r "ATG" = 1 ∧ r "TCA" = 3 ∧ r "TCC" = 3 ∧ r "GAA" = 2 ∧
      (∀ c ∈ CODON_LIST, c ∉ (["ATG", "TCA", "TCC", "GAA"] : List String) → r c = 0) := by
  have hincl : inclQ 0 (⟨"ATGTCATCCGAA", 3, "", ""⟩ : Gene) = true := by
    have h1 : geneImprecise (⟨"ATGTCATCCGAA", 3, "", ""⟩ : Gene) = 0 := by decide
    have h2 : geneNCodons (⟨"ATGTCATCCGAA", 3, "", ""⟩ : Gene) = 4 := by
      rw [geneNCodons]
      norm_num [show ("ATGTCATCCGAA" : String).length = 12 from rfl]
    simp [inclQ, h1, h2]
  have hproof : geneSetCodonCounts [⟨"ATGTCATCCGAA", 3, "", ""⟩] 0 (1/2) = .ok
      (fun c => ((([⟨"ATGTCATCCGAA", 3, "", ""⟩] : List Gene).filter (inclQ 0)).map
          (fun g => geneCodonDict g c)).sum,
       (([⟨"ATGTCATCCGAA", 3, "", ""⟩] : List Gene).map geneImprecise).sum,
       (([⟨"ATGTCATCCGAA", 3, "", ""⟩] : List Gene).filter (fun g => !inclQ 0 g)).map
         (fun g => g.gene_id)) := by
    rw [geneSetCodonCounts_eq [⟨"ATGTCATCCGAA", 3, "", ""⟩] 0 (1/2) (by simp) ?_]
    · rw [if_neg (by norm_num [hincl])]
    · intro g hg
      rw [List.mem_singleton.mp hg]
      exact ncodons_ne_zero _ (by decide) (by decide)
  have hfil : ([⟨"ATGTCATCCGAA", 3, "", ""⟩] : List Gene).filter (inclQ 0)
      = [⟨"ATGTCATCCGAA", 3, "", ""⟩] := by
    simp [hincl]
  have hd : (fun c => ((([⟨"ATGTCATCCGAA", 3, "", ""⟩] : List Gene).filter (inclQ 0)).map
      (fun g => geneCodonDict g c)).sum)
      = geneCodonDict ⟨"ATGTCATCCGAA", 3, "", ""⟩ := by
    funext c
    rw [hfil]
    simp
  have htot : (CODON_LIST.map (fun c => ((([⟨"ATGTCATCCGAA", 3, "", ""⟩] : List Gene).filter
      (inclQ 0)).map (fun g => geneCodonDict g c)).sum)).sum = 4 := by
    rw [hd]
    decide
  have hfreq : geneSetCodonFrequency [⟨"ATGTCATCCGAA", 3, "", ""⟩] 0 (1/2) = .ok
      (fun k => (((fun c => ((([⟨"ATGTCATCCGAA", 3, "", ""⟩] : List Gene).filter
          (inclQ 0)).map (fun g => geneCodonDict g c)).sum) k : ℕ) : ℚ) /
        (((CODON_LIST.map (fun c => ((([⟨"ATGTCATCCGAA", 3, "", ""⟩] : List Gene).filter
          (inclQ 0)).map (fun g => geneCodonDict g c)).sum)).sum : ℕ) : ℚ)) := by
    rw [geneSetCodonFrequency_of_ok _ 0 (1/2) _ _ _ hproof, freqOfCounts,
        if_neg (by rw [htot]; norm_num)]
  have hrscu := geneSetRSCU_of_ok [⟨"ATGTCATCCGAA", 3, "", ""⟩] 0 (1/2) _ _ _ hproof
  refine ⟨_, _, _, _, _, hproof, hfreq, hrscu, ?_, ?_, ?_, ?_, ?_, ?_, ?_, ?_, ?_, ?_,
    ?_, ?_, ?_, ?_, ?_⟩
  · rw [hfil]; decide
  · rw [hfil]; decide
  · rw [hfil]; decide
  · rw [hfil]; decide
  · rw [hfil]
    decide
  · rw [hd]; decide
  · rw [hd]; decide
  · rw [hd]; decide
  · rw [hd]
    decide
  · rw [htot, hfil]
    norm_num [show geneCodonDict (⟨"ATGTCATCCGAA", 3, "", ""⟩ : Gene) "ATG" = 1 from by decide]
  · rw [hd, RSCU_of, if_pos (by decide : ("ATG" : String) ∈ CODON_LIST),
        if_pos (by decide : geneCodonDict (⟨"ATGTCATCCGAA", 3, "", ""⟩ : Gene) "ATG" ≠ 0),
        show ((CODON_TABLE.filter
            (fun p => p.2 == lookupTable "ATG")).map Prod.fst) = ["ATG"] from by decide,
        show geneCodonDict (⟨"ATGTCATCCGAA", 3, "", ""⟩ : Gene) "ATG" = 1 from by decide,
        show ((["ATG"] : List String).map
            (geneCodonDict ⟨"ATGTCATCCGAA", 3, "", ""⟩)).sum = 1 from by decide]
    norm_num
  · rw [hd, RSCU_of, if_pos (by decide : ("TCA" : String) ∈ CODON_LIST),
        if_pos (by decide : geneCodonDict (⟨"ATGTCATCCGAA", 3, "", ""⟩ : Gene) "TCA" ≠ 0),
        show ((CODON_TABLE.filter (fun p => p.2 == lookupTable "TCA")).map Prod.fst)
          = ["AGC", "AGT", "TCA", "TCC", "TCG", "TCT"] from by decide,
        show geneCodonDict (⟨"ATGTCATCCGAA", 3, "", ""⟩ : Gene) "TCA" = 1 from by decide,
        show (((["AGC", "AGT", "TCA", "TCC", "TCG", "TCT"] : List String)).map
            (geneCodonDict ⟨"ATGTCATCCGAA", 3, "", ""⟩)).sum = 2 from by decide]
    norm_num
  · rw [hd, RSCU_of, if_pos (by decide : ("TCC" : String) ∈ CODON_LIST),
        if_pos (by decide : geneCodonDict (⟨"ATGTCATCCGAA", 3, "", ""⟩ : Gene) "TCC" ≠ 0),
        show ((CODON_TABLE.filter (fun p => p.2 == lookupTable "TCC")).map Prod.fst)
          = ["AGC", "AGT", "TCA", "TCC", "TCG", "TCT"] from by decide,
        show geneCodonDict (⟨"ATGTCATCCGAA", 3, "", ""⟩ : Gene) "TCC" = 1 from by decide,
        show (((["AGC", "AGT", "TCA", "TCC", "TCG", "TCT"] : List String)).map
            (geneCodonDict ⟨"ATGTCATCCGAA", 3, "", ""⟩)).sum = 2 from by decide]
    norm_num
  · rw [hd, RSCU_of, if_pos (by decide : ("GAA" : String) ∈ CODON_LIST),
        if_pos (by decide : geneCodonDict (⟨"ATGTCATCCGAA", 3, "", ""⟩ : Gene) "GAA" ≠ 0),
        show ((CODON_TABLE.filter (fun p => p.2 == lookupTable "GAA")).map Prod.fst)
          = ["GAA", "GAG"] from by decide,
        show geneCodonDict (⟨"ATGTCATCCGAA", 3, "", ""⟩ : Gene) "GAA" = 1 from by decide,
        show (((["GAA", "GAG"] : List String)).map
            (geneCodonDict ⟨"ATGTCATCCGAA", 3, "", ""⟩)).sum = 1 from by decide]
    norm_num
  · intro c hc hn
    have h0 : geneCodonDict (⟨"ATGTCATCCGAA", 3, "", ""⟩ : Gene) c = 0 := by
      revert hn
      revert hc
      revert c
      decide
    rw [hd, RSCU_of, if_pos hc, if_neg (by simp [h0])]

/-- C6: with a positive codon length, Gene construction succeeds exactly when
the sequence length is a multiple of the codon length — the only validation
performed — and in any accepted gene, every codon window containing a
character outside {A,C,G,T} is not a CODON_LIST key, so it receives no codon
count and is tallied into the imprecise-window count by
`calculate_codon_counts` rather than being rejected. -/
theorem gene_init_validation (gene_seq gene_id gene_product : String)
    (codon_length : ℕ) (h : 0 < codon_length) :
    ((∃ g, mkGene gene_seq codon_length gene_id gene_product = .ok g) ↔
      gene_seq.length % codon_length = 0) ∧
    (∀ g, mkGene gene_seq codon_length gene_id gene_product = .ok g →
      geneImprecise g
          = ((geneWindows g).filter (fun w => !decide (w ∈ CODON_LIST))).length ∧
      ∀ w ∈ geneWindows g,
        (∃ ch ∈ w.data, ch ∉ (['A', 'C', 'G', 'T'] : List Char)) →
          w ∉ CODON_LIST ∧ geneCodonDict g w = 0) := by
  have hz : codon_length ≠ 0 := Nat.pos_iff_ne_zero.mp h
  constructor
  · constructor
    · rintro ⟨g, hg⟩
      rw [mkGene, if_neg hz] at hg
      by_cases hm : gene_seq.length % codon_length = 0
      · exact hm
      · rw [if_neg hm] at hg
        exact absurd hg (by simp)
    · intro hm
      exact ⟨_, by rw [mkGene, if_neg hz, if_pos hm]⟩
  · intro g _
    refine ⟨rfl, ?_⟩
    intro w hw hch
    have hacgt : ∀ c ∈ CODON_LIST, ∀ ch ∈ c.data, ch ∈ (['A', 'C', 'G', 'T'] : List Char) := by
      decide
    have hnm : w ∉ CODON_LIST := by
      intro hmem
      rcases hch with ⟨ch, hch1, hch2⟩
      exact hch2 (hacgt w hmem ch hch1)
    exact ⟨hnm, by simp [geneCodonDict, hnm]⟩

/-- Witness for `gene_init_validation` at the sequence `ATGNNA` with codon
length 3. -/
theorem gene_init_validation_witness :
    ((∃ g, mkGene "ATGNNA" 3 "id" "prod" = .ok g) ↔
      ("ATGNNA" : String).length % 3 = 0) ∧
    (∀ g, mkGene "ATGNNA" 3 "id" "prod" = .ok g →
      geneImprecise g
          = ((geneWindows g).filter (fun w => !decide (w ∈ CODON_LIST))).length ∧
      ∀ w ∈ geneWindows g,
        (∃ ch ∈ w.data, ch ∉ (['A', 'C', 'G', 'T'] : List Char)) →
          w ∉ CODON_LIST ∧ geneCodonDict g w = 0) :=
  gene_init_validation "ATGNNA" "id" "prod" 3 (by decide)

theorem rscu_syn_table : ∀ c0 ∈ CODON_LIST,
    ((CODON_TABLE.filter (fun p => p.2 == lookupTable c0)).map Prod.fst)
      = CODON_LIST.filter (fun k => lookupTable k == lookupTable c0) := by
  decide

/-- C7: every CODON_LIST codon with nonzero aggregate count has RSCU equal to
count / (T / |S|), S being the codons sharing its amino acid in CODON_TABLE
and T the sum of their aggregate counts; codons with zero count keep RSCU 0;
and every non-degenerate codon with nonzero count has RSCU exactly 1. -/
theorem RSCU_formula (d : String → ℕ) (c : String)
    (hc : c ∈ CODON_LIST) (h0 : d c ≠ 0) :
    (RSCU_of d c = (d c : ℚ) /
      (((((CODON_LIST.filter (fun k => lookupTable k == lookupTable c)).map d).sum : ℕ) : ℚ) /
        (((CODON_LIST.filter (fun k => lookupTable k == lookupTable c)).length : ℕ) : ℚ))) ∧
    (∀ c2 ∈ CODON_LIST, d c2 = 0 → RSCU_of d c2 = 0) ∧
    (c ∈ non_degenerate_codons → RSCU_of d c = 1) := by
  refine ⟨?_, ?_, ?_⟩
  · rw [RSCU_of, if_pos hc, if_pos h0, rscu_syn_table c hc]
  · intro c2 hc2 h02
    rw [RSCU_of, if_pos hc2, if_neg (by simp [h02])]
  · intro hnd
    have hsingle : ∀ c0 ∈ non_degenerate_codons,
        ((CODON_TABLE.filter (fun p => p.2 == lookupTable c0)).map Prod.fst) = [c0] := by
      decide
    rw [RSCU_of, if_pos hc, if_pos h0, hsingle c hnd]
    have hdc : (d c : ℚ) ≠ 0 := by exact_mod_cast h0
    simp [hdc]

/-- Witness for `RSCU_formula` at the count mapping giving ATG the value 2
and every other codon 0. -/
theorem RSCU_formula_witness :
    (RSCU_of (fun x => if x = "ATG" then 2 else 0) "ATG"
        = ((fun x => if x = "ATG" then 2 else 0) "ATG" : ℚ) /
      (((((CODON_LIST.filter (fun k => lookupTable k == lookupTable "ATG")).map
            (fun x => if x = "ATG" then 2 else 0)).sum : ℕ) : ℚ) /
        (((CODON_LIST.filter (fun k => lookupTable k == lookupTable "ATG")).length : ℕ) : ℚ))) ∧
    (∀ c2 ∈ CODON_LIST, (fun x => if x = "ATG" then 2 else 0) c2 = 0 →
      RSCU_of (fun x => if x = "ATG" then 2 else 0) c2 = 0) ∧
    ("ATG" ∈ non_degenerate_codons →
      RSCU_of (fun x => if x = "ATG" then 2 else 0) "ATG" = 1) :=
  RSCU_formula (fun x => if x = "ATG" then 2 else 0) "ATG" (by decide) (by decide)

theorem tRNAList_no_match (gs : List Gene) :
    ∀ acc, (∀ g ∈ gs, matchesTRNAPattern g.gene_product = false) →
      tRNAList acc gs = .ok acc := by
  induction gs with
  | nil => intro acc _; rfl
  | cons g gs ih =>
    intro acc h
    have hstep : tRNAStep acc g = .ok acc := by
      rw [tRNAStep, if_neg (by simp [h g (List.mem_cons_self g gs)])]
    rw [tRNAList, hstep]
    exact ih acc (fun g2 hm => h g2 (List.mem_cons_of_mem g hm))

/-- C8: a GeneSet in which no gene's product annotation matches the tRNA
pattern yields all-zero tRNA count and frequency mappings (per amino acid and
per complementary codon) without error; the absence of tRNAs only clears the
informational `has_tRNAs` flag, triggering the informational report. -/
theorem tRNA_no_matches_all_zero (genes : List Gene)
    (h : ∀ g ∈ genes, matchesTRNAPattern g.gene_product = false) :
    tRNA_counts genes = .ok (fun _ => 0, fun _ => 0, 0) ∧
    tRNA_frequency genes = .ok (fun _ => 0, fun _ => 0) ∧
    hasTRNAs genes = false := by
  have hc : tRNA_counts genes = .ok (fun _ => 0, fun _ => 0, 0) := by
    rw [tRNA_counts, tRNAList_no_match genes _ h]
    simp
  refine ⟨hc, ?_, ?_⟩
  · rw [tRNA_frequency, hc]
    simp
  · rw [hasTRNAs]
    simp only [List.any_eq_false]
    intro g hg
    simp [h g hg]

/-- Witness for `tRNA_no_matches_all_zero` at a one-gene set whose product
annotation is not a tRNA. -/
theorem tRNA_no_matches_all_zero_witness :
    tRNA_counts [⟨"ATG", 3, "g1", "hypothetical protein"⟩]
        = .ok (fun _ => 0, fun _ => 0, 0) ∧
    tRNA_frequency [⟨"ATG", 3, "g1", "hypothetical protein"⟩]
        = .ok (fun _ => 0, fun _ => 0) ∧
    hasTRNAs [⟨"ATG", 3, "g1", "hypothetical protein"⟩] = false :=
  tRNA_no_matches_all_zero [⟨"ATG", 3, "g1", "hypothetical protein"⟩] (by decide)

theorem tRNAStep_bad (acc : (String → ℕ) × (String → ℕ)) (g : Gene)
    (hm : matchesTRNAPattern g.gene_product = true)
    (hbad : AA_CONVERSIONS.lookup (extractAA3 g.gene_product) = none ∨
      reverse_complement (extractAnticodon g.gene_product) ∈ stop_codons) :
    tRNAStep acc g = .error .keyError := by
  rw [tRNAStep, if_pos hm]
  rcases hL : AA_CONVERSIONS.lookup (extractAA3 g.gene_product) with _ | aa1
  · rfl
  · rcases hbad with hb | hb
    · rw [hb] at hL
      cases hL
    · have hstop : ∀ x ∈ stop_codons, x ∉ SENSE_CODONS := by decide
      exact if_neg (hstop _ hb)

theorem tRNAList_bad (gs : List Gene) :
    ∀ (acc : (String → ℕ) × (String → ℕ)) (g : Gene), g ∈ gs →
      matchesTRNAPattern g.gene_product = true →
      (AA_CONVERSIONS.lookup (extractAA3 g.gene_product) = none ∨
        reverse_complement (extractAnticodon g.gene_product) ∈ stop_codons) →
      tRNAList acc gs = .error .keyError := by
  induction gs with
  | nil =>
    intro acc g hg
    cases hg
  | cons x xs ih =>
    intro acc g hg hm hbad
    rcases List.mem_cons.mp hg with rfl | hmem
    · rw [tRNAList, tRNAStep_bad acc g hm hbad]
    · rcases hs : tRNAStep acc x with e | acc2
      · rw [tRNAList, hs]
      · rw [tRNAList, hs]
        exact ih acc2 g hmem hm hbad

/-- C10: whenever a gene's product annotation matches the tRNA pattern but
either its three-letter amino-acid abbreviation is not an AA_CONVERSIONS key
or the reverse complement of its anticodon is a stop codon (the tcc tally
has no stop-codon keys), `tRNA_counts` on a gene set containing that gene
raises an uncaught KeyError rather than ignoring the gene. -/
theorem tRNA_keyerror_on_bad_product (genes : List Gene) (g : Gene)
    (hg : g ∈ genes)
    (hm : matchesTRNAPattern g.gene_product = true)
    (hbad : AA_CONVERSIONS.lookup (extractAA3 g.gene_product) = none ∨
      reverse_complement (extractAnticodon g.gene_product) ∈ stop_codons) :
    tRNA_counts genes = .error .keyError := by
  rw [tRNA_counts, tRNAList_bad genes _ g hg hm hbad]

/-- Witness for `tRNA_keyerror_on_bad_product` at the product
`tRNA-Xaa(AAA)`, whose abbreviation `Xaa` is not a standard amino acid. -/
theorem tRNA_keyerror_on_bad_product_witness :
    tRNA_counts [⟨"", 3, "t1", "tRNA-Xaa(AAA)"⟩] = .error .keyError :=
  tRNA_keyerror_on_bad_product [⟨"", 3, "t1", "tRNA-Xaa(AAA)"⟩]
    ⟨"", 3, "t1", "tRNA-Xaa(AAA)"⟩ (List.mem_singleton.mpr rfl) (by decide)
    (Or.inl (by decide))

/-- C2 (amended): when both the host and the virus have no counted tRNAs
(all per-amino-acid and per-codon tRNA counts are zero, so the pooled tRNA
total is zero), `virus_TAAI` and `virus_TCAI` with `include_virus_tRNA=True`
raise `ZeroDivisionError` while renormalizing the pooled counts, instead of
returning a defined zero/neutral result; this holds for every correlation
routine `sp` substituted for the scipy Spearman call. -/
theorem pooled_tRNA_zero_division (sp : List ℚ → List ℚ → ℚ)
    (vaf htf vcf htc : String → ℚ)
    (hdA vdA hdC vdC : String → ℕ)
    (hA0 : ∀ k ∈ AA_KEYS, hdA k = 0 ∧ vdA k = 0)
    (hC0 : ∀ k ∈ SENSE_CODONS, hdC k = 0 ∧ vdC k = 0) :
    virusTAAI sp true vaf htf hdA vdA = .error .zeroDivision ∧
    virusTCAI sp false true vcf htc hdC vdC = .error .zeroDivision := by
  have hA : (AA_KEYS.map (fun k => hdA k + vdA k)).sum = 0 := by
    apply List.sum_eq_zero
    intro x hx
    rcases List.mem_map.mp hx with ⟨k, hk, rfl⟩
    rw [(hA0 k hk).1, (hA0 k hk).2]
    rfl
  have hC : ((SENSE_CODONS.filter (fun k => !decide (k ∈ stop_codons))).map
      (fun k => hdC k + vdC k)).sum = 0 := by
    apply List.sum_eq_zero
    intro x hx
    rcases List.mem_map.mp hx with ⟨k, hk, rfl⟩
    have hk2 : k ∈ SENSE_CODONS := (List.mem_filter.mp hk).1
    rw [(hC0 k hk2).1, (hC0 k hk2).2]
    rfl
  constructor
  · simp only [virusTAAI, if_true]
    rw [if_pos hA]
  · simp only [virusTCAI, if_true, Bool.false_eq_true, if_false]
    rw [if_pos hC]

/-- Witness for `pooled_tRNA_zero_division` with all-zero tRNA dictionaries
and a trivial correlation routine. -/
theorem pooled_tRNA_zero_division_witness :
    virusTAAI (fun _ _ => 0) true (fun _ => 0) (fun _ => 0) (fun _ => 0) (fun _ => 0)
        = .error .zeroDivision ∧
    virusTCAI (fun _ _ => 0) false true (fun _ => 0) (fun _ => 0) (fun _ => 0) (fun _ => 0)
        = .error .zeroDivision :=
  pooled_tRNA_zero_division (fun _ _ => 0) (fun _ => 0) (fun _ => 0) (fun _ => 0)
    (fun _ => 0) (fun _ => 0) (fun _ => 0) (fun _ => 0) (fun _ => 0)
    (fun _ _ => ⟨rfl, rfl⟩) (fun _ _ => ⟨rfl, rfl⟩)

/-- C2 counterexample: with an empty pooled tRNA pool (all tRNA counts zero)
but nonzero virus usage frequencies, both pooled-total adaptation indices are
a `ZeroDivisionError`, not a defined zero/neutral value. -/
theorem pooled_tRNA_zero_division_cex :
    virusTAAI (fun _ _ => 0) true (fun _ => 1/20) (fun _ => 0) (fun _ => 0) (fun _ => 0)
        = .error .zeroDivision ∧
    virusTCAI (fun _ _ => 0) false true (fun _ => 1/61) (fun _ => 0) (fun _ => 0) (fun _ => 0)
        = .error .zeroDivision := by
  constructor
  · simp only [virusTAAI, if_true]
    rw [if_pos (by decide)]
  · simp only [virusTCAI, if_true, Bool.false_eq_true, if_false]
    rw [if_pos (by decide)]
